import Mathlib

/-!
Verification development for the LIS2DH12 MicroPython accelerometer driver
(`LIS2DH12.py`).  The driver is a single class holding a 6-byte in-memory
control-register image (`_ctrl_reg`), semantic configuration fields, and a
soft-PWM "backlight" toggler driven by a one-shot timer.  We embed the class
shallowly: the instance attributes become a `DriverState` record, each method
becomes a state-transforming function, a raised exception becomes an error
result carrying the state at the moment of the raise, and every
`i2c.writeto_mem` call is recorded in an explicit write trace.

Modelling notes, faithful to the source:
* `_ctrl_reg` is six Python ints; we use six `Nat` fields `r0`–`r5`.
* `self._bit_mode` starts as `None` and is set to 8/10/12: `Option Nat`.
* `self._backlight_duty` starts as `None` but is always assigned before any
  arithmetic use; we model it as `Int` (initially 0).
* `machine.Timer` objects: `timerObj : Bool` records whether `self._timer`
  is a timer object (`true`) or `None` (`false`).  `timer.init(period, ONE_SHOT,
  callback)` arms a pending one-shot, recorded in `armed` as the period and the
  identity of the callback; dropping the object reference (`self._timer = None`)
  does not cancel a pending one-shot.
* `ustruct.pack` with format "<b" in MicroPython truncates to the low byte, so the
  serialized image is each register byte modulo 256.
* `ustruct.unpack` with format "<h" is a little-endian signed 16-bit decode.
* The Python bytes literals written backslash-F-F and backslash-0-0 in
  `_enable_backlight` are *not* single bytes: backslash-F is an invalid escape
  kept literally, so the first is the three bytes 0x5C 0x46 0x46, and the
  second is an octal NUL escape followed by the digit zero, i.e. the two
  bytes 0x00 0x30.
* All raises in the source are `RuntimeError` with distinct messages; the two
  rate/mode-mismatch raise sites additionally reference an undefined local
  name (`bit_mode`) in their f-string, so CPython raises `NameError` there.
  Either way each raise site is a failure; we tag the rate/mode-mismatch
  sites `incompatibleConfiguration` and the unknown-token / unknown-value
  sites `invalidParameter`, following the error taxonomy of the specification.
-/

namespace LIS2DH12

/-- The 6-byte in-memory control-register image `self._ctrl_reg`
(`ctrl_reg[0]` is device register CTRL_REG1 at 0x20). -/
structure Regs where
  r0 : Nat
  r1 : Nat
  r2 : Nat
  r3 : Nat
  r4 : Nat
  r5 : Nat
deriving Repr, DecidableEq

/-- Identity of a timer callback: the source arms one-shots with either
`_enable_backlight_timer_on` (which drives the output low) or
`_enable_backlight_timer_off` (which drives the output high). -/
inductive Cb where
  | timerOnCb
  | timerOffCb
deriving Repr, DecidableEq

/-- One `i2c.writeto_mem(address, memaddr, data)` call: the register address
and the raw payload bytes (the device address is a fixed attribute). -/
structure BusWrite where
  memaddr : Nat
  data : List Nat
deriving Repr, DecidableEq

/-- Error taxonomy for the raise sites of the source (see module docstring). -/
inductive DriverError where
  | invalidParameter
  | incompatibleConfiguration
deriving Repr, DecidableEq

/-- The mutable attributes of a `LIS2DH12` instance that the core logic
touches. -/
structure DriverState where
  regs : Regs
  bit_mode : Option Nat
  dataRate : Option String
  scaleFactor : Option String
  scaleDivide : Nat
  outputUnits : Option String
  backlightDuty : Int
  stopTimer : Bool
  timerObj : Bool
  armed : Option (Int × Cb)
deriving Repr, DecidableEq

/-- Result of a fallible setter: on a raise we keep the state as mutated up to
the raise site. -/
inductive SRes where
  | ok (s : DriverState)
  | err (e : DriverError) (s : DriverState)
deriving Repr, DecidableEq

/-- Result of `modify`: state plus the trace of bus writes issued; an error
carries the state and the writes issued up to the moment of the raise. -/
inductive MRes where
  | ok (s : DriverState) (ws : List BusWrite)
  | err (e : DriverError) (s : DriverState) (ws : List BusWrite)
deriving Repr, DecidableEq

/-- Constant `BACKLIGHT_MIN = const(0)`. -/
def BACKLIGHT_MIN : Int := 0

/-- Constant `BACKLIGHT_MAX = const(10)`. -/
def BACKLIGHT_MAX : Int := 10

/-- The register image as initialized by `__init__` (all zero). -/
def initRegs : Regs := ⟨0, 0, 0, 0, 0, 0⟩

/-- Attribute values set at the top of `__init__`, before the initial
`modify` call. -/
def initState : DriverState :=
  { regs := initRegs
    bit_mode := none
    dataRate := none
    scaleFactor := none
    scaleDivide := 1
    outputUnits := none
    backlightDuty := 0
    stopTimer := false
    timerObj := false
    armed := none }

/-- Source `_enable_sensors`: clear bits 0–2 of register 0, then OR in 0x01/0x02/0x04
for each of "x", "y", "z" present in the `sensors` string. -/
def _enable_sensors (sensors : String) (s : DriverState) : DriverState :=
  let a := s.regs.r0 &&& 0xF8
  let a := if sensors.data.contains 'x' then a ||| 0x01 else a
  let a := if sensors.data.contains 'y' then a ||| 0x02 else a
  let a := if sensors.data.contains 'z' then a ||| 0x04 else a
  { s with regs := { s.regs with r0 := a } }

/-- Source `_measurement_size`: clear bit 3 of registers 0 and 3, then set
register-0 bit 3 for 8-bit (low power), register-3 bit 3 for 12-bit
(high resolution), neither for 10-bit (normal); raise for anything else. -/
def _measurement_size (bit_mode : Nat) (s : DriverState) : SRes :=
  let s := { s with regs := { s.regs with r0 := s.regs.r0 &&& 0xF7, r3 := s.regs.r3 &&& 0xF7 } }
  if bit_mode = 10 then
    .ok { s with bit_mode := some 10 }
  else if bit_mode = 8 then
    .ok { s with regs := { s.regs with r0 := s.regs.r0 ||| 0x08 }, bit_mode := some 8 }
  else if bit_mode = 12 then
    .ok { s with regs := { s.regs with r3 := s.regs.r3 ||| 0x08 }, bit_mode := some 12 }
  else
    .err .invalidParameter s

/-- Source `_data_rate`: clear bits 4–7 of register 0, then OR in the 4-bit ODR code
for the requested token; the two kHz rates gated on `_bit_mode == 8` and
`5.376kHz` gated on `_bit_mode` 10 or 12 raise on a mode mismatch; an
unrecognized token raises.  The lowercase `self.data_rate` attribute is set
only on the branches that set it in the source (not on the kHz branches). -/
def _data_rate (data_rate : String) (s : DriverState) : SRes :=
  let s := { s with regs := { s.regs with r0 := s.regs.r0 &&& 0x0F } }
  if data_rate = "power-down" then
    .ok { s with dataRate := some "power-down" }
  else if data_rate = "1Hz" then
    .ok { s with regs := { s.regs with r0 := s.regs.r0 ||| 0x10 }, dataRate := some "1hz" }
  else if data_rate = "10Hz" then
    .ok { s with regs := { s.regs with r0 := s.regs.r0 ||| 0x20 }, dataRate := some "10hz" }
  else if data_rate = "25Hz" then
    .ok { s with regs := { s.regs with r0 := s.regs.r0 ||| 0x30 }, dataRate := some "25hz" }
  else if data_rate = "50Hz" then
    .ok { s with regs := { s.regs with r0 := s.regs.r0 ||| 0x40 }, dataRate := some "50hz" }
  else if data_rate = "100Hz" then
    .ok { s with regs := { s.regs with r0 := s.regs.r0 ||| 0x50 }, dataRate := some "100hz" }
  else if data_rate = "200Hz" then
    .ok { s with regs := { s.regs with r0 := s.regs.r0 ||| 0x60 }, dataRate := some "200hz" }
  else if data_rate = "400Hz" then
    .ok { s with regs := { s.regs with r0 := s.regs.r0 ||| 0x70 }, dataRate := some "400hz" }
  else if data_rate = "1.620kHz" then
    if s.bit_mode = some 8 then
      .ok { s with regs := { s.regs with r0 := s.regs.r0 ||| 0x80 } }
    else
      .err .incompatibleConfiguration s
  else if data_rate = "1.344kHz" then
    if s.bit_mode = some 8 then
      .ok { s with regs := { s.regs with r0 := s.regs.r0 ||| 0x90 } }
    else
      .err .incompatibleConfiguration s
  else if data_rate = "5.376kHz" then
    if s.bit_mode = some 10 ∨ s.bit_mode = some 12 then
      .ok { s with regs := { s.regs with r0 := s.regs.r0 ||| 0x90 } }
    else
      .err .incompatibleConfiguration s
  else
    .err .invalidParameter s

/-- Source `_scale`: the source executes `self._ctrl_reg[3] &= const(0x30)` (keeping
bits 4–5 and zeroing every other bit of register 3), then ORs in the 2-bit
range code and records the decode divisor; raises on an unknown token. -/
def _scale (scale : String) (s : DriverState) : SRes :=
  let s := { s with regs := { s.regs with r3 := s.regs.r3 &&& 0x30 } }
  if scale = "2g" then
    .ok { s with scaleFactor := some "2g", scaleDivide := 16384 }
  else if scale = "4g" then
    .ok { s with regs := { s.regs with r3 := s.regs.r3 ||| 0x10 }, scaleFactor := some "4g", scaleDivide := 8192 }
  else if scale = "8g" then
    .ok { s with regs := { s.regs with r3 := s.regs.r3 ||| 0x20 }, scaleFactor := some "8g", scaleDivide := 4096 }
  else if scale = "16g" then
    .ok { s with regs := { s.regs with r3 := s.regs.r3 ||| 0x30 }, scaleFactor := some "16g", scaleDivide := 1024 }
  else
    .err .invalidParameter s

/-- Source `_enable_backlight(enable)`: Python truthiness on `enable` (called with an
int duty or a bool; we pass bools as 0/1).  Truthy: set in-memory byte 5 to
0xFF and write the three bytes 5C 46 46 (see the module docstring) to device
register 0x25; falsy: set byte 5 to 0x00 and write the two bytes 00 30. -/
def _enable_backlight (enable : Int) (s : DriverState) : DriverState × List BusWrite :=
  if enable ≠ 0 then
    ({ s with regs := { s.regs with r5 := 0xFF } }, [⟨0x25, [0x5C, 0x46, 0x46]⟩])
  else
    ({ s with regs := { s.regs with r5 := 0x00 } }, [⟨0x25, [0x00, 0x30]⟩])

/-- Source `_enable_backlight_timer_on`: drive the output low, then unless the stop
flag is set, arm a one-shot with period `BACKLIGHT_MAX - _backlight_duty`
whose callback is `_enable_backlight_timer_off`. -/
def _enable_backlight_timer_on (s : DriverState) : DriverState × List BusWrite :=
  let p := _enable_backlight 0 s
  if p.1.stopTimer then p
  else ({ p.1 with armed := some (BACKLIGHT_MAX - p.1.backlightDuty, Cb.timerOffCb) }, p.2)

/-- Source `_enable_backlight_timer_off`: drive the output high, then unless the stop
flag is set, arm a one-shot with period `_backlight_duty` whose callback is
`_enable_backlight_timer_on`. -/
def _enable_backlight_timer_off (s : DriverState) : DriverState × List BusWrite :=
  let p := _enable_backlight 1 s
  if p.1.stopTimer then p
  else ({ p.1 with armed := some (p.1.backlightDuty, Cb.timerOnCb) }, p.2)

/-- Dispatch a stored callback identity to the function it names. -/
def runCb : Cb → DriverState → DriverState × List BusWrite
  | .timerOnCb, s => _enable_backlight_timer_on s
  | .timerOffCb, s => _enable_backlight_timer_off s

/-- The keyword arguments of `modify` (each `None`-defaulted parameter as an
`Option`; `backlight_duty` defaults to the int 10 in the source). -/
structure ModifyArgs where
  sensors : Option String
  bit_mode : Option Nat
  data_rate : Option String
  scale : Option String
  output_units : Option String
  backlight_duty : Int
deriving Repr, DecidableEq

/-- The validation prefix of `modify` (source lines 111–125): the five `if
<param>:` guards (Python truthiness: `None`, empty string and 0 all skip)
applied in order — sensors, bit_mode, data_rate, scale, output_units.  No bus
write occurs in this prefix; a raise aborts it. -/
def modifyValidate (a : ModifyArgs) (s : DriverState) : SRes :=
  let s := match a.sensors with
    | some str => if str = "" then s else _enable_sensors str s
    | none => s
  match (match a.bit_mode with
    | some bm => if bm = 0 then SRes.ok s else _measurement_size bm s
    | none => SRes.ok s) with
  | .err e s => .err e s
  | .ok s =>
  match (match a.data_rate with
    | some dr => if dr = "" then SRes.ok s else _data_rate dr s
    | none => SRes.ok s) with
  | .err e s => .err e s
  | .ok s =>
  match (match a.scale with
    | some sc => if sc = "" then SRes.ok s else _scale sc s
    | none => SRes.ok s) with
  | .err e s => .err e s
  | .ok s =>
  match a.output_units with
  | some u =>
    if u = "" then .ok s
    else if u = "SI" ∨ u = "G" then .ok { s with outputUnits := some u }
    else .err .invalidParameter s
  | none => .ok s

/-- The backlight block of `modify` (source lines 127–142): skipped when the
duty is falsy (0); otherwise drop the timer reference, clamp-and-stop below
`BACKLIGHT_MIN` or above `BACKLIGHT_MAX`, else record the duty, clear the stop
flag, create a timer and call `_enable_backlight_timer_on`; in all three cases
finish with `_enable_backlight(self._backlight_duty)`. -/
def modifyApply (a : ModifyArgs) (s : DriverState) : DriverState × List BusWrite :=
  if a.backlight_duty ≠ 0 then
    let s := { s with timerObj := false }
    let p :=
      if BACKLIGHT_MIN > a.backlight_duty then
        ({ s with stopTimer := true, backlightDuty := BACKLIGHT_MIN }, ([] : List BusWrite))
      else if a.backlight_duty > BACKLIGHT_MAX then
        ({ s with stopTimer := true, backlightDuty := BACKLIGHT_MAX }, ([] : List BusWrite))
      else
        _enable_backlight_timer_on
          { s with backlightDuty := a.backlight_duty, stopTimer := false, timerObj := true }
    let q := _enable_backlight p.1.backlightDuty p.1
    (q.1, p.2 ++ q.2)
  else (s, [])

/-- Serialization of the image for the final control-register write:
a join of `ustruct.pack` with format "<b" over `self._ctrl_reg`; MicroPython
truncates each value to the low byte. -/
def packImage (r : Regs) : List Nat :=
  [r.r0 % 256, r.r1 % 256, r.r2 % 256, r.r3 % 256, r.r4 % 256, r.r5 % 256]

/-- Source `modify`: validation prefix, then the backlight block, then the single
6-byte image write to memory address 0xA0 (CTRL_REG1 with auto-increment). -/
def modify (a : ModifyArgs) (s : DriverState) : MRes :=
  match modifyValidate a s with
  | .err e s => .err e s []
  | .ok s =>
    let p := modifyApply a s
    .ok p.1 (p.2 ++ [⟨0xA0, packImage p.1.regs⟩])

/-- Constant `const(9.81)`, the SI scaling constant, as an exact rational. -/
def SI_FACTOR : ℚ := 981 / 100

/-- Result of `ustruct.unpack` with format "<h" on the two bytes `lo`, `hi`:
little-endian signed 16-bit decode. -/
def int16LE (lo hi : Nat) : Int :=
  let u := lo + 256 * hi
  if u < 32768 then (u : Int) else (u : Int) - 65536

/-- The decode loop of the `acceleration` property: for each of the three
index pairs, unpack a little-endian signed 16-bit word, divide by
`_scale_divide`, and multiply by 9.81 when `_output_units` equals "SI".
Floats are modelled as exact rationals. -/
def acceleration (value_raw : List Nat) (scale_divide : Nat) (output_units : String) : List ℚ :=
  (List.range 3).map (fun index =>
    let lo := value_raw.getD (index * 2) 0
    let hi := value_raw.getD (index * 2 + 1) 0
    let v : ℚ := (int16LE lo hi : ℚ) / (scale_divide : ℚ)
    if output_units = "SI" then v * SI_FACTOR else v)

/-! Derived views of the setters, used to state and prove the claims.  Each
view is read off the corresponding branch of the source function; the
characterization lemmas below prove the setters equal to their views. -/

/-- Axis bitmask assembled by `_enable_sensors`. -/
def sensBits (str : String) : Nat :=
  ((if str.data.contains 'x' then 0x01 else 0) |||
    (if str.data.contains 'y' then 0x02 else 0)) |||
    (if str.data.contains 'z' then 0x04 else 0)

/-- View of `_measurement_size`: for a recognized mode, the bit ORed into
register 0, the bit ORed into register 3, and the recorded `_bit_mode`. -/
def bmSpec (bm : Nat) : Option (Nat × Nat × Nat) :=
  if bm = 10 then some (0, 0, 10)
  else if bm = 8 then some (0x08, 0, 8)
  else if bm = 12 then some (0, 0x08, 12)
  else none

/-- Rate tokens recognized by `_data_rate`. -/
def drKnown (dr : String) : Bool :=
  dr = "power-down" || dr = "1Hz" || dr = "10Hz" || dr = "25Hz" || dr = "50Hz" ||
    dr = "100Hz" || dr = "200Hz" || dr = "400Hz" || dr = "1.620kHz" ||
    dr = "1.344kHz" || dr = "5.376kHz"

/-- Byte ORed into register 0 by `_data_rate` for each recognized token
(0 for an unrecognized one). -/
def drBits (dr : String) : Nat :=
  if dr = "power-down" then 0x00
  else if dr = "1Hz" then 0x10
  else if dr = "10Hz" then 0x20
  else if dr = "25Hz" then 0x30
  else if dr = "50Hz" then 0x40
  else if dr = "100Hz" then 0x50
  else if dr = "200Hz" then 0x60
  else if dr = "400Hz" then 0x70
  else if dr = "1.620kHz" then 0x80
  else if dr = "1.344kHz" then 0x90
  else if dr = "5.376kHz" then 0x90
  else 0

/-- Documented 4-bit ODR code per rate token, i.e. `drBits` shifted down by
four bits: the code the source ORs into bits 4–7 of register 0. -/
def docRateCode (dr : String) : Nat :=
  if dr = "power-down" then 0
  else if dr = "1Hz" then 1
  else if dr = "10Hz" then 2
  else if dr = "25Hz" then 3
  else if dr = "50Hz" then 4
  else if dr = "100Hz" then 5
  else if dr = "200Hz" then 6
  else if dr = "400Hz" then 7
  else if dr = "1.620kHz" then 8
  else if dr = "1.344kHz" then 9
  else if dr = "5.376kHz" then 9
  else 0

/-- Value stored into the lowercase `self.data_rate` attribute, when the
branch stores one (the kHz branches do not). -/
def drName (dr : String) : Option String :=
  if dr = "power-down" then some "power-down"
  else if dr = "1Hz" then some "1hz"
  else if dr = "10Hz" then some "10hz"
  else if dr = "25Hz" then some "25hz"
  else if dr = "50Hz" then some "50hz"
  else if dr = "100Hz" then some "100hz"
  else if dr = "200Hz" then some "200hz"
  else if dr = "400Hz" then some "400hz"
  else none

/-- Rate tokens that the source accepts only when `_bit_mode == 8`
(low-power / 8-bit). -/
def drNeedsLowPower (dr : String) : Bool :=
  dr = "1.620kHz" || dr = "1.344kHz"

/-- Rate token that the source accepts only when `_bit_mode` is 10 or 12
(normal / high-resolution). -/
def drNeedsNormalHi (dr : String) : Bool :=
  dr = "5.376kHz"

/-- Mode gate applied by `_data_rate` given the resolved `_bit_mode`. -/
def drModeOk (dr : String) (bm : Option Nat) : Bool :=
  if dr = "1.620kHz" ∨ dr = "1.344kHz" then decide (bm = some 8)
  else if dr = "5.376kHz" then decide (bm = some 10 ∨ bm = some 12)
  else true

/-- View of `_scale`: for a recognized range token, the bits ORed into
register 3, the recorded `_scale_factor`, and the recorded `_scale_divide`. -/
def scSpec (sc : String) : Option (Nat × String × Nat) :=
  if sc = "2g" then some (0x00, "2g", 16384)
  else if sc = "4g" then some (0x10, "4g", 8192)
  else if sc = "8g" then some (0x20, "8g", 4096)
  else if sc = "16g" then some (0x30, "16g", 1024)
  else none

/-- State reached by a fallible setter, whether or not it raised. -/
def sresState : SRes → DriverState
  | .ok s => s
  | .err _ s => s

/-- State reached by `modify`, whether or not it raised. -/
def mresState : MRes → DriverState
  | .ok s _ => s
  | .err _ s _ => s

/-! Characterization lemmas: each setter equals its branch view. -/

/-- Characterization of `_enable_sensors` via `sensBits`. -/
lemma enable_sensors_eq (str : String) (s : DriverState) :
    _enable_sensors str s =
      { s with regs := { s.regs with r0 := (s.regs.r0 &&& 0xF8) ||| sensBits str } } := by
  unfold _enable_sensors sensBits
  by_cases hx : 'x' ∈ str.data <;> by_cases hy : 'y' ∈ str.data <;>
    by_cases hz : 'z' ∈ str.data <;> simp [hx, hy, hz, Nat.or_assoc]

/-- Characterization of `_measurement_size` via `bmSpec`. -/
lemma measurement_size_eq (bm : Nat) (s : DriverState) :
    _measurement_size bm s =
      match bmSpec bm with
      | some x =>
        .ok { s with regs := { s.regs with r0 := (s.regs.r0 &&& 0xF7) ||| x.1, r3 := (s.regs.r3 &&& 0xF7) ||| x.2.1 }, bit_mode := some x.2.2 }
      | none =>
        .err .invalidParameter
          { s with regs := { s.regs with r0 := s.regs.r0 &&& 0xF7, r3 := s.regs.r3 &&& 0xF7 } } := by
  unfold _measurement_size bmSpec
  split_ifs <;> simp_all

/-- Characterization of `_data_rate` via `drKnown`, `drModeOk`, `drBits`,
`drName`. -/
lemma data_rate_eq (dr : String) (s : DriverState) :
    _data_rate dr s =
      if drKnown dr then
        if drModeOk dr s.bit_mode then
          .ok { s with regs := { s.regs with r0 := (s.regs.r0 &&& 0x0F) ||| drBits dr }, dataRate := (match drName dr with | some nm => some nm | none => s.dataRate) }
        else
          .err .incompatibleConfiguration
            { s with regs := { s.regs with r0 := s.regs.r0 &&& 0x0F } }
      else
        .err .invalidParameter
          { s with regs := { s.regs with r0 := s.regs.r0 &&& 0x0F } } := by
  by_cases h1 : dr = "power-down"
  · subst h1; simp [_data_rate, drKnown, drModeOk, drBits, drName]
  by_cases h2 : dr = "1Hz"
  · subst h2; simp [_data_rate, drKnown, drModeOk, drBits, drName]
  by_cases h3 : dr = "10Hz"
  · subst h3; simp [_data_rate, drKnown, drModeOk, drBits, drName]
  by_cases h4 : dr = "25Hz"
  · subst h4; simp [_data_rate, drKnown, drModeOk, drBits, drName]
  by_cases h5 : dr = "50Hz"
  · subst h5; simp [_data_rate, drKnown, drModeOk, drBits, drName]
  by_cases h6 : dr = "100Hz"
  · subst h6; simp [_data_rate, drKnown, drModeOk, drBits, drName]
  by_cases h7 : dr = "200Hz"
  · subst h7; simp [_data_rate, drKnown, drModeOk, drBits, drName]
  by_cases h8 : dr = "400Hz"
  · subst h8; simp [_data_rate, drKnown, drModeOk, drBits, drName]
  by_cases h9 : dr = "1.620kHz"
  · subst h9; simp [_data_rate, drKnown, drModeOk, drBits, drName]
  by_cases h10 : dr = "1.344kHz"
  · subst h10; simp [_data_rate, drKnown, drModeOk, drBits, drName]
  by_cases h11 : dr = "5.376kHz"
  · subst h11; simp [_data_rate, drKnown, drModeOk, drBits, drName]
  simp [_data_rate, drKnown, drModeOk, drBits, drName, h1, h2, h3, h4, h5, h6, h7, h8, h9, h10, h11]

/-- Characterization of `_scale` via `scSpec`. -/
lemma scale_eq (sc : String) (s : DriverState) :
    _scale sc s =
      match scSpec sc with
      | some x =>
        .ok { s with regs := { s.regs with r3 := (s.regs.r3 &&& 0x30) ||| x.1 }, scaleFactor := some x.2.1, scaleDivide := x.2.2 }
      | none =>
        .err .invalidParameter { s with regs := { s.regs with r3 := s.regs.r3 &&& 0x30 } } := by
  unfold _scale scSpec
  split_ifs <;> simp_all

/-! Bit algebra: a mask-then-OR update, and any nesting of such updates, is
idempotent, whatever the masks and OR values are. -/

/-- Idempotence of a single mask-then-OR register update. -/
lemma chain1_idem (m o a : Nat) :
    ((((a &&& m) ||| o) &&& m) ||| o) = ((a &&& m) ||| o) := by
  apply Nat.eq_of_testBit_eq
  intro i
  simp only [Nat.testBit_or, Nat.testBit_and]
  cases a.testBit i <;> cases m.testBit i <;> cases o.testBit i <;> rfl

/-- Idempotence of two nested mask-then-OR register updates. -/
lemma chain2_idem (m1 o1 m2 o2 a : Nat) :
    ((((((((a &&& m1) ||| o1) &&& m2) ||| o2) &&& m1) ||| o1) &&& m2) ||| o2)
      = ((((a &&& m1) ||| o1) &&& m2) ||| o2) := by
  apply Nat.eq_of_testBit_eq
  intro i
  simp only [Nat.testBit_or, Nat.testBit_and]
  cases a.testBit i <;> cases m1.testBit i <;> cases o1.testBit i <;>
    cases m2.testBit i <;> cases o2.testBit i <;> rfl

/-- Idempotence of three nested mask-then-OR register updates. -/
lemma chain3_idem (m1 o1 m2 o2 m3 o3 a : Nat) :
    ((((((((((((a &&& m1) ||| o1) &&& m2) ||| o2) &&& m3) ||| o3) &&& m1) ||| o1) &&& m2) ||| o2) &&& m3) ||| o3)
      = ((((((a &&& m1) ||| o1) &&& m2) ||| o2) &&& m3) ||| o3) := by
  apply Nat.eq_of_testBit_eq
  intro i
  simp only [Nat.testBit_or, Nat.testBit_and]
  cases a.testBit i <;> cases m1.testBit i <;> cases o1.testBit i <;>
    cases m2.testBit i <;> cases o2.testBit i <;> cases m3.testBit i <;>
    cases o3.testBit i <;> rfl

/-- Bits 4–7 of a value built by clearing them and ORing in a code made only
of bits 4–7 are exactly that code. -/
lemma land_low_lor_high (a c : Nat) (hc : c &&& 0xF0 = c) :
    ((a &&& 0x0F) ||| c) &&& 0xF0 = c := by
  apply Nat.eq_of_testBit_eq
  intro i
  have h1 : (c.testBit i && Nat.testBit 0xF0 i) = c.testBit i := by
    rw [← Nat.testBit_and, hc]
  have h0 : (0x0F : Nat) &&& 0xF0 = 0 := by decide
  have h2 : (Nat.testBit 0x0F i && Nat.testBit 0xF0 i) = false := by
    rw [← Nat.testBit_and, h0, Nat.zero_testBit]
  simp only [Nat.testBit_or, Nat.testBit_and]
  cases ha : a.testBit i <;> cases hcc : c.testBit i <;>
    cases hl : Nat.testBit 0x0F i <;> cases hh : Nat.testBit 0xF0 i <;> simp_all

/-! Closed form of a fully-specified valid `modify` call. -/

/-- View of the axes stage of `modify`: the guard `if sensors:` skips the
setter for a falsy (empty) axes string. -/
def sensR0 (str : String) (a : Nat) : Nat :=
  if str = "" then a else (a &&& 0xF8) ||| sensBits str

/-- Register image produced by a fully-specified valid `modify` call, as a
function of the previous image. -/
def modelRegs (str : String) (b0 b3 : Nat) (dr : String) (scb : Nat) (d : Int) (r : Regs) : Regs :=
  { r0 := (((sensR0 str r.r0 &&& 0xF7) ||| b0) &&& 0x0F) ||| drBits dr
    r1 := r.r1
    r2 := r.r2
    r3 := (((r.r3 &&& 0xF7) ||| b3) &&& 0x30) ||| scb
    r4 := r.r4
    r5 := if d = 0 then r.r5 else 0xFF }

/-- Full state produced by a fully-specified valid `modify` call. -/
def modelState (str : String) (bm b0 b3 : Nat) (dr : String) (x : Nat × String × Nat) (u : String) (d : Int) (s : DriverState) : DriverState :=
  { regs := modelRegs str b0 b3 dr x.1 d s.regs
    bit_mode := some bm
    dataRate := (match drName dr with | some nm => some nm | none => s.dataRate)
    scaleFactor := some x.2.1
    scaleDivide := x.2.2
    outputUnits := some u
    backlightDuty := if d = 0 then s.backlightDuty else d
    stopTimer := if d = 0 then s.stopTimer else false
    timerObj := if d = 0 then s.timerObj else true
    armed := if d = 0 then s.armed else some (10 - d, Cb.timerOffCb) }

/-- Bus writes issued by a fully-specified valid `modify` call. -/
def modelWrites (str : String) (b0 b3 : Nat) (dr : String) (scb : Nat) (d : Int) (r : Regs) : List BusWrite :=
  (if d = 0 then [] else [⟨0x25, [0x00, 0x30]⟩, ⟨0x25, [0x5C, 0x46, 0x46]⟩]) ++
    [⟨0xA0, packImage (modelRegs str b0 b3 dr scb d r)⟩]

/-- Characterization: a `modify` call with every setting supplied and valid
(resolution one of 8/10/12, recognized rate compatible with that resolution,
recognized range, unit SI or G, duty within bounds) succeeds and produces the
modelled state and write trace. -/
lemma modify_ok_char (str : String) (bm b0 b3 : Nat) (dr sc u : String)
    (x : Nat × String × Nat) (d : Int) (s : DriverState)
    (hbm : bmSpec bm = some (b0, b3, bm))
    (hdr : drKnown dr = true)
    (hmode : drModeOk dr (some bm) = true)
    (hsc : scSpec sc = some x)
    (hu : u = "SI" ∨ u = "G")
    (hd0 : 0 ≤ d) (hd10 : d ≤ 10) :
    modify ⟨some str, some bm, some dr, some sc, some u, d⟩ s =
      .ok (modelState str bm b0 b3 dr x u d s) (modelWrites str b0 b3 dr x.1 d s.regs) := by
  have hbm0 : ¬ bm = 0 := by intro h; subst h; simp [bmSpec] at hbm
  have hdr0 : ¬ dr = "" := by intro h; subst h; simp [drKnown] at hdr
  have hsc0 : ¬ sc = "" := by intro h; subst h; simp [scSpec] at hsc
  have hu1 : ¬ u = "" := by rcases hu with h | h <;> subst h <;> simp
  by_cases hstr : str = "" <;> by_cases hd : d = 0
  · subst hd
    simp [modify, modifyValidate, modifyApply, enable_sensors_eq,
      measurement_size_eq, data_rate_eq, scale_eq, hbm, hsc, hdr, hmode, hu,
      hbm0, hdr0, hsc0, hu1, hstr, modelState, modelRegs, modelWrites, sensR0, packImage]
  · have hlo : ¬ d < (0 : Int) := by omega
    have hhi : ¬ (10 : Int) < d := by omega
    simp [modify, modifyValidate, modifyApply, enable_sensors_eq,
      measurement_size_eq, data_rate_eq, scale_eq, hbm, hsc, hdr, hmode, hu,
      hbm0, hdr0, hsc0, hu1, hstr, hd, hlo, hhi, _enable_backlight_timer_on,
      _enable_backlight, BACKLIGHT_MIN, BACKLIGHT_MAX, modelState, modelRegs,
      modelWrites, sensR0, packImage]
  · subst hd
    simp [modify, modifyValidate, modifyApply, enable_sensors_eq,
      measurement_size_eq, data_rate_eq, scale_eq, hbm, hsc, hdr, hmode, hu,
      hbm0, hdr0, hsc0, hu1, hstr, modelState, modelRegs, modelWrites, sensR0, packImage]
  · have hlo : ¬ d < (0 : Int) := by omega
    have hhi : ¬ (10 : Int) < d := by omega
    simp [modify, modifyValidate, modifyApply, enable_sensors_eq,
      measurement_size_eq, data_rate_eq, scale_eq, hbm, hsc, hdr, hmode, hu,
      hbm0, hdr0, hsc0, hu1, hstr, hd, hlo, hhi, _enable_backlight_timer_on,
      _enable_backlight, BACKLIGHT_MIN, BACKLIGHT_MAX, modelState, modelRegs,
      modelWrites, sensR0, packImage]

/-- The modelled register update of a valid `modify` call is idempotent. -/
lemma modelRegs_idem (str : String) (b0 b3 : Nat) (dr : String) (scb : Nat) (d : Int) (r : Regs) :
    modelRegs str b0 b3 dr scb d (modelRegs str b0 b3 dr scb d r) =
      modelRegs str b0 b3 dr scb d r := by
  unfold modelRegs sensR0
  by_cases hstr : str = "" <;> by_cases hd : d = 0 <;>
    simp [hstr, hd, chain2_idem, chain3_idem]

/-- The modelled state update of a valid `modify` call is idempotent. -/
lemma modelState_idem (str : String) (bm b0 b3 : Nat) (dr : String) (x : Nat × String × Nat) (u : String) (d : Int) (s : DriverState) :
    modelState str bm b0 b3 dr x u d (modelState str bm b0 b3 dr x u d s) =
      modelState str bm b0 b3 dr x u d s := by
  by_cases hd : d = 0 <;> rcases hn : drName dr with _ | nm <;>
    simp [modelState, modelRegs_idem, hd, hn]

/-! Claim theorems. -/

/-- Per-sample decode as the specification words it: interpret the 2-byte
little-endian pair as a signed 16-bit integer, divide by the divisor, and
multiply by the standard gravity constant 9.81 exactly when the unit is SI. -/
def specSamplePair (lo hi divisor : Nat) (unit : String) : ℚ :=
  let v : ℚ := (int16LE lo hi : ℚ) / (divisor : ℚ)
  if unit = "SI" then v * (981 / 100) else v

/-- C1: for every 6-byte raw input, divisor and unit, the `acceleration` read
path decodes the three consecutive little-endian signed 16-bit pairs, divides
each by the divisor, and multiplies by 9.81 exactly when the unit is SI; the
fixture bytes 0x00 0x40 0x00 0x00 0x00 0x00 with divisor 16384 give
(1.0, 0.0, 0.0) in native units and x = 9.81 under SI (and the sign is
honoured: high byte 0xC0 gives -1.0). -/
theorem acceleration_decode :
    (∀ (b0 b1 b2 b3 b4 b5 d : Nat) (u : String),
        acceleration [b0, b1, b2, b3, b4, b5] d u =
          [specSamplePair b0 b1 d u, specSamplePair b2 b3 d u, specSamplePair b4 b5 d u])
  ∧ acceleration [0x00, 0x40, 0x00, 0x00, 0x00, 0x00] 16384 "G" = [1, 0, 0]
  ∧ acceleration [0x00, 0x40, 0x00, 0x00, 0x00, 0x00] 16384 "SI" = [981 / 100, 0, 0]
  ∧ acceleration [0x00, 0xC0, 0x00, 0x00, 0x00, 0x00] 16384 "G" = [-1, 0, 0] := by
  refine ⟨fun b0 b1 b2 b3 b4 b5 d u => rfl, ?_, ?_, ?_⟩ <;>
    norm_num [acceleration, int16LE, SI_FACTOR, List.range_succ] <;> decide

/-- Driver image whose register 3 has the high-resolution bit (bit 3) set,
as `_measurement_size(12)` leaves it. -/
def hrImage : DriverState := { initState with regs := { initRegs with r3 := 0x08 } }

/-- Driver image whose register 3 holds the 8g range code (bits 4–5 = 10). -/
def prevRangeImage : DriverState := { initState with regs := { initRegs with r3 := 0x20 } }

/-- C3: evaluation of `_scale` at the failing inputs.  The claim says
`setRange` clears only bits 4–5 of register 3 and leaves every other bit —
in particular the high-resolution bit 3 — unchanged.  The source instead
executes `reg3 &= 0x30`, which *keeps* bits 4–5 and zeroes everything else:
starting from register 3 = 0x08 (HR bit set), `_scale("2g")` wipes bit 3;
and starting from the 8g code 0x20, `_scale("4g")` yields 0x30, the 16g
code, because the stale range bits are kept and ORed with the new code.
The recorded divisor (16384 for 2g) is as claimed. -/
theorem scale_clobbers_other_bits :
    _scale "2g" hrImage =
      .ok { hrImage with regs := { hrImage.regs with r3 := 0x00 }, scaleFactor := some "2g", scaleDivide := 16384 }
  ∧ hrImage.regs.r3 &&& 0x08 = 0x08
  ∧ (sresState (_scale "2g" hrImage)).regs.r3 &&& 0x08 = 0x00
  ∧ (sresState (_scale "4g" prevRangeImage)).regs.r3 = 0x30 := by
  refine ⟨?_, ?_, ?_, ?_⟩ <;> decide

/-- Arguments requesting only an (invalid) resolution mode of 9. -/
def invalidBmArgs : ModifyArgs := ⟨none, some 9, none, none, none, 0⟩

/-- Driver image with the low-power bit (register 0 bit 3) set. -/
def lowPowerImage : DriverState := { initState with regs := { initRegs with r0 := 0x08 } }

/-- C4 counterexample: `modify` with the unrecognized resolution mode 9 on an
image whose register 0 is 0x08 raises `invalidParameter`, but at the moment
of the raise the in-memory image has already been mutated (bit 3 of register
0 was cleared by the mask step that precedes the validity check), refuting
the claim that the image equals its value from before the call. -/
theorem modify_mutates_image_before_raise :
    modify invalidBmArgs lowPowerImage = .err .invalidParameter initState []
  ∧ initState.regs.r0 ≠ lowPowerImage.regs.r0 := by
  refine ⟨?_, ?_⟩ <;> decide

/-- C4 (amended): whenever `modify` raises a validation error, no bus write
has been issued at the moment of the raise — the error's write trace is
empty.  (The in-memory image, however, may already have the failing setter's
owned bits cleared, as the counterexample shows.) -/
theorem modify_raise_no_bus_write (a : ModifyArgs) (s s' : DriverState)
    (e : DriverError) (ws : List BusWrite)
    (h : modify a s = .err e s' ws) : ws = [] := by
  unfold modify at h
  cases hv : modifyValidate a s with
  | ok t => rw [hv] at h; simp at h
  | err e' t => rw [hv] at h; simp at h; exact h.2.2

/-- C4 witness: the amended theorem applied at the concrete failing input. -/
theorem modify_raise_no_bus_write_witness : ([] : List BusWrite) = [] :=
  modify_raise_no_bus_write invalidBmArgs lowPowerImage initState .invalidParameter [] (by decide)

/-- C5: `modify` with a fixed, fully-supplied, valid settings tuple is
idempotent — a second call with identical settings from the state the first
call produced returns the byte-identical register image (indeed the identical
state) and issues the identical write trace, including the same serialized
control-register payload. -/
theorem modify_config_idem (str : String) (bm b0 b3 : Nat) (dr sc u : String)
    (x : Nat × String × Nat) (d : Int) (s0 s1 : DriverState) (ws : List BusWrite)
    (hbm : bmSpec bm = some (b0, b3, bm))
    (hdr : drKnown dr = true)
    (hmode : drModeOk dr (some bm) = true)
    (hsc : scSpec sc = some x)
    (hu : u = "SI" ∨ u = "G")
    (hd0 : 0 ≤ d) (hd10 : d ≤ 10)
    (h : modify ⟨some str, some bm, some dr, some sc, some u, d⟩ s0 = .ok s1 ws) :
    modify ⟨some str, some bm, some dr, some sc, some u, d⟩ s1 = .ok s1 ws := by
  rw [modify_ok_char str bm b0 b3 dr sc u x d s0 hbm hdr hmode hsc hu hd0 hd10] at h
  injection h with h1 h2
  subst h1
  subst h2
  rw [modify_ok_char str bm b0 b3 dr sc u x d _ hbm hdr hmode hsc hu hd0 hd10]
  rw [modelState_idem]
  simp [modelWrites, modelState, modelRegs_idem]

/-- State produced by the witness `modify` call of `modify_config_idem`. -/
def idemWitnessState : DriverState :=
  { regs := ⟨0x27, 0, 0, 0, 0, 0xFF⟩
    bit_mode := some 10
    dataRate := some "10hz"
    scaleFactor := some "2g"
    scaleDivide := 16384
    outputUnits := some "G"
    backlightDuty := 10
    stopTimer := false
    timerObj := true
    armed := some (0, Cb.timerOffCb) }

/-- Write trace produced by the witness `modify` call of `modify_config_idem`. -/
def idemWitnessWrites : List BusWrite :=
  [⟨0x25, [0x00, 0x30]⟩, ⟨0x25, [0x5C, 0x46, 0x46]⟩, ⟨0xA0, [0x27, 0, 0, 0, 0, 0xFF]⟩]

/-- C5 witness: the idempotence theorem applied to the concrete settings
(axes xyz, 10-bit, 10Hz, 2g, G units, duty 10) starting from the initial
state. -/
theorem modify_config_idem_witness :
    modify ⟨some "xyz", some 10, some "10Hz", some "2g", some "G", 10⟩ idemWitnessState =
      .ok idemWitnessState idemWitnessWrites :=
  modify_config_idem "xyz" 10 0 0 "10Hz" "2g" "G" (0, "2g", 16384) 10 initState
    idemWitnessState idemWitnessWrites (by decide) (by decide) (by decide) (by decide)
    (Or.inr rfl) (by decide) (by decide) (by decide)

/-- C2: with the resolution mode resolved to 8, 10 or 12, requesting a rate
that requires low-power mode (the 1.620kHz and 1.344kHz tokens) while the
mode is not 8, or the rate that requires normal/high-resolution mode (the
5.376kHz token) while the mode is 8, fails with the
`incompatibleConfiguration` error, which is distinct from `invalidParameter`
(the error for an unrecognized token); a compatible recognized rate succeeds
and leaves bits 4–7 of register 0 equal to the documented 4-bit ODR code. -/
theorem data_rate_mode_gating (bm : Nat) (dr : String) (s : DriverState)
    (hbm : bm = 8 ∨ bm = 10 ∨ bm = 12) (hs : s.bit_mode = some bm) :
    (drNeedsLowPower dr = true → bm ≠ 8 →
      _data_rate dr s =
        .err .incompatibleConfiguration { s with regs := { s.regs with r0 := s.regs.r0 &&& 0x0F } })
  ∧ (drNeedsNormalHi dr = true → bm = 8 →
      _data_rate dr s =
        .err .incompatibleConfiguration { s with regs := { s.regs with r0 := s.regs.r0 &&& 0x0F } })
  ∧ DriverError.incompatibleConfiguration ≠ DriverError.invalidParameter
  ∧ (drKnown dr = false →
      _data_rate dr s =
        .err .invalidParameter { s with regs := { s.regs with r0 := s.regs.r0 &&& 0x0F } })
  ∧ (drKnown dr = true → drModeOk dr (some bm) = true →
      ∃ t, _data_rate dr s = .ok t ∧ t.regs.r0 &&& 0xF0 = 16 * docRateCode dr) := by
  refine ⟨?_, ?_, by decide, ?_, ?_⟩
  · intro hneed hne8
    unfold drNeedsLowPower at hneed
    simp only [Bool.or_eq_true, decide_eq_true_eq] at hneed
    rcases hneed with h | h <;> subst h <;>
      simp [data_rate_eq, drKnown, drModeOk, drBits, drName, hs, hne8]
  · intro hneed h8
    unfold drNeedsNormalHi at hneed
    simp only [decide_eq_true_eq] at hneed
    subst hneed
    subst h8
    simp [data_rate_eq, drKnown, drModeOk, drBits, drName, hs]
  · intro hunk
    simp [data_rate_eq, hunk]
  · intro hk hm
    rw [data_rate_eq]
    rw [hs]
    simp only [hk, hm, if_true]
    refine ⟨_, rfl, ?_⟩
    unfold drKnown at hk
    simp only [Bool.or_eq_true, decide_eq_true_eq] at hk
    rcases hk with ((((((((((h | h) | h) | h) | h) | h) | h) | h) | h) | h) | h) <;> subst h <;>
      simp [drBits, docRateCode] <;>
      first
        | exact land_low_lor_high s.regs.r0 _ (by decide)
        | (rw [Nat.and_assoc, show (15 : Nat) &&& 240 = 0 from by decide, Nat.and_zero])

/-- State for the C2 witness: the resolution was resolved to 10-bit. -/
def resolvedTenBit : DriverState := { initState with bit_mode := some 10 }

/-- C2 witness: the gating theorem applied at mode 10 with rate 10Hz. -/
theorem data_rate_mode_gating_witness :
    (drNeedsLowPower "10Hz" = true → 10 ≠ 8 →
      _data_rate "10Hz" resolvedTenBit =
        .err .incompatibleConfiguration
          { resolvedTenBit with regs := { resolvedTenBit.regs with r0 := resolvedTenBit.regs.r0 &&& 0x0F } })
  ∧ (drNeedsNormalHi "10Hz" = true → 10 = 8 →
      _data_rate "10Hz" resolvedTenBit =
        .err .incompatibleConfiguration
          { resolvedTenBit with regs := { resolvedTenBit.regs with r0 := resolvedTenBit.regs.r0 &&& 0x0F } })
  ∧ DriverError.incompatibleConfiguration ≠ DriverError.invalidParameter
  ∧ (drKnown "10Hz" = false →
      _data_rate "10Hz" resolvedTenBit =
        .err .invalidParameter
          { resolvedTenBit with regs := { resolvedTenBit.regs with r0 := resolvedTenBit.regs.r0 &&& 0x0F } })
  ∧ (drKnown "10Hz" = true → drModeOk "10Hz" (some 10) = true →
      ∃ t, _data_rate "10Hz" resolvedTenBit = .ok t ∧
        t.regs.r0 &&& 0xF0 = 16 * docRateCode "10Hz") :=
  data_rate_mode_gating 10 "10Hz" resolvedTenBit (Or.inr (Or.inl rfl)) rfl

/-- Configuration-encoder operations (the register-image setters plus the
pure unit validation), as invoked by `modify`. -/
inductive EncoderOp where
  | axes (str : String)
  | resolution (bm : Nat)
  | rate (dr : String)
  | range (sc : String)
  | units (u : String)

/-- Application of one encoder operation to the driver state, keeping the
state reached even when the setter raises. -/
def applyEncoderOp : EncoderOp → DriverState → DriverState
  | .axes str, s => _enable_sensors str s
  | .resolution bm, s => sresState (_measurement_size bm s)
  | .rate dr, s => sresState (_data_rate dr s)
  | .range sc, s => sresState (_scale sc s)
  | .units u, s => if u = "SI" ∨ u = "G" then { s with outputUnits := some u } else s

/-- No single encoder operation changes register byte 5. -/
lemma applyEncoderOp_r5 (op : EncoderOp) (s : DriverState) :
    (applyEncoderOp op s).regs.r5 = s.regs.r5 := by
  cases op with
  | axes str => simp [applyEncoderOp, enable_sensors_eq]
  | resolution bm =>
    rw [applyEncoderOp, measurement_size_eq]
    rcases bmSpec bm with _ | y <;> simp [sresState]
  | rate dr =>
    rw [applyEncoderOp, data_rate_eq]
    split_ifs <;> simp [sresState]
  | range sc =>
    rw [applyEncoderOp, scale_eq]
    rcases scSpec sc with _ | y <;> simp [sresState]
  | units u =>
    rw [applyEncoderOp]
    split_ifs <;> simp

/-- C6: byte-ownership invariant — for every sequence of configuration
encoder operations (axes, resolution, rate, range, unit), register byte 5
(the indicator/backlight byte) is unchanged, whether or not any of them
raises; and the backlight path `_enable_backlight` is the writer of that
byte, setting it to 0xFF when enabling and 0x00 when disabling. -/
theorem encoder_never_touches_indicator_byte :
    (∀ (ops : List EncoderOp) (s : DriverState),
        (ops.foldl (fun t op => applyEncoderOp op t) s).regs.r5 = s.regs.r5)
  ∧ (∀ (s : DriverState) (e : Int),
        (_enable_backlight e s).1.regs.r5 = if e ≠ 0 then 0xFF else 0x00) := by
  constructor
  · intro ops
    induction ops with
    | nil => intro s; rfl
    | cons op ops ih =>
      intro s
      rw [List.foldl_cons, ih, applyEncoderOp_r5]
  · intro s e
    unfold _enable_backlight
    split_ifs <;> simp

/-- Arguments for `modify` that supply only a backlight duty. -/
def onlyDuty (d : Int) : ModifyArgs := ⟨none, none, none, none, none, d⟩

/-- Driver state in the middle of an active duty-5 toggle chain: timer object
present, a one-shot pending, stop flag clear, output currently high. -/
def togglingDuty5 : DriverState :=
  { initState with backlightDuty := 5, timerObj := true, armed := some (5, Cb.timerOnCb), regs := { initRegs with r5 := 0xFF } }

/-- C7: evaluation at the failing input.  The claim says setting the duty to
0 forces the output off, cancels the pending timer and stops re-arming.  In
the source `if backlight_duty:` treats 0 as falsy, so the whole backlight
block is skipped: the call returns with the stop flag still clear, the
one-shot still pending, the output byte still 0xFF, and no write to the
indicator register 0x25 — only the unconditional 6-byte image write. -/
theorem duty_zero_is_ignored :
    modify (onlyDuty 0) togglingDuty5 =
      .ok togglingDuty5 [⟨0xA0, [0, 0, 0, 0, 0, 0xFF]⟩]
  ∧ togglingDuty5.stopTimer = false
  ∧ togglingDuty5.armed = some (5, Cb.timerOnCb)
  ∧ togglingDuty5.regs.r5 = 0xFF := by
  refine ⟨?_, ?_, ?_, ?_⟩ <;> decide

/-- C8 counterexample: setting the duty to exactly 10 (= MAX) from the
initial state leaves the stop flag clear and arms a one-shot (with period 0),
refuting the claim that duty = MAX sets the stop flag and arms no timer. -/
theorem duty_max_does_not_stop :
    (mresState (modify (onlyDuty 10) initState)).stopTimer = false
  ∧ (mresState (modify (onlyDuty 10) initState)).armed = some (0, Cb.timerOffCb) := by
  refine ⟨?_, ?_⟩ <;> decide

/-- C8 (amended): setting the duty to exactly MAX (10) takes the active
branch — stop flag clear, a timer object created, a one-shot armed with
OFF-phase period 0 and the output forced high — whereas only a request
strictly above MAX clamps to 10 with the stop flag set, no timer object and
no new one-shot armed (a pending one-shot is not cancelled), the output
forced high. -/
theorem duty_max_vs_above_max (s : DriverState) (d : Int) :
    (d = 10 →
      modify (onlyDuty d) s =
        .ok { s with backlightDuty := 10, stopTimer := false, timerObj := true, armed := some (0, Cb.timerOffCb), regs := { s.regs with r5 := 0xFF } }
          [⟨0x25, [0x00, 0x30]⟩, ⟨0x25, [0x5C, 0x46, 0x46]⟩, ⟨0xA0, packImage { s.regs with r5 := 0xFF }⟩])
  ∧ (d > 10 →
      modify (onlyDuty d) s =
        .ok { s with backlightDuty := 10, stopTimer := true, timerObj := false, regs := { s.regs with r5 := 0xFF } }
          [⟨0x25, [0x5C, 0x46, 0x46]⟩, ⟨0xA0, packImage { s.regs with r5 := 0xFF }⟩]) := by
  constructor
  · intro h
    subst h
    simp [modify, modifyValidate, modifyApply, onlyDuty, _enable_backlight_timer_on,
      _enable_backlight, BACKLIGHT_MIN, BACKLIGHT_MAX, packImage]
  · intro h
    have h0 : ¬ d = 0 := by omega
    have hlo : ¬ d < (0 : Int) := by omega
    have hhi : (10 : Int) < d := by omega
    simp [modify, modifyValidate, modifyApply, onlyDuty, _enable_backlight,
      BACKLIGHT_MIN, BACKLIGHT_MAX, packImage, h0, hlo, hhi]

/-- C8 witness: the amended theorem applied at duties 10 and 11 from the
initial state. -/
theorem duty_max_vs_above_max_witness :
    (modify (onlyDuty 10) initState =
      .ok { initState with backlightDuty := 10, stopTimer := false, timerObj := true, armed := some (0, Cb.timerOffCb), regs := { initState.regs with r5 := 0xFF } }
        [⟨0x25, [0x00, 0x30]⟩, ⟨0x25, [0x5C, 0x46, 0x46]⟩, ⟨0xA0, packImage { initState.regs with r5 := 0xFF }⟩])
  ∧ (modify (onlyDuty 11) initState =
      .ok { initState with backlightDuty := 10, stopTimer := true, timerObj := false, regs := { initState.regs with r5 := 0xFF } }
        [⟨0x25, [0x5C, 0x46, 0x46]⟩, ⟨0xA0, packImage { initState.regs with r5 := 0xFF }⟩]) :=
  ⟨(duty_max_vs_above_max initState 10).1 rfl,
    (duty_max_vs_above_max initState 11).2 (by decide)⟩

/-- C9 counterexample: configuring a duty strictly between the bounds (5)
leaves the indicator output byte at 0xFF — high, not low — at the end of the
call, refuting the claim that the output is in the low (disabled) state when
the configuring call returns. -/
theorem duty_mid_ends_high :
    (mresState (modify (onlyDuty 5) initState)).regs.r5 = 0xFF
  ∧ (0xFF : Nat) ≠ 0x00 := by
  refine ⟨?_, ?_⟩ <;> decide

/-- C9 (amended): with a duty strictly between the bounds, the call first
forces the output low (the first 0x25 write carries the off payload) and
arms the one-shot for ON-phase entry — period `MAX - duty` with the
enabling callback `_enable_backlight_timer_off`, which always drives the
output high when it fires — but the call then immediately re-enables the
output, so at the end of the call the output byte is 0xFF (high), not low. -/
theorem duty_mid_arms_on_entry_then_reenables (s : DriverState) (d : Int)
    (h1 : 0 < d) (h2 : d < 10) :
    (modify (onlyDuty d) s =
      .ok { s with backlightDuty := d, stopTimer := false, timerObj := true, armed := some (10 - d, Cb.timerOffCb), regs := { s.regs with r5 := 0xFF } }
        [⟨0x25, [0x00, 0x30]⟩, ⟨0x25, [0x5C, 0x46, 0x46]⟩, ⟨0xA0, packImage { s.regs with r5 := 0xFF }⟩])
  ∧ (∀ t : DriverState, (runCb Cb.timerOffCb t).1.regs.r5 = 0xFF) := by
  constructor
  · have h0 : ¬ d = 0 := by omega
    have hlo : ¬ d < (0 : Int) := by omega
    have hhi : ¬ (10 : Int) < d := by omega
    simp [modify, modifyValidate, modifyApply, onlyDuty, _enable_backlight_timer_on,
      _enable_backlight, BACKLIGHT_MIN, BACKLIGHT_MAX, packImage, h0, hlo, hhi]
  · intro t
    cases ht : t.stopTimer <;>
      simp [runCb, _enable_backlight_timer_off, _enable_backlight, ht]

/-- C9 witness: the amended theorem applied at duty 5 from the initial
state. -/
theorem duty_mid_arms_on_entry_then_reenables_witness :
    (modify (onlyDuty 5) initState =
      .ok { initState with backlightDuty := 5, stopTimer := false, timerObj := true, armed := some (10 - 5, Cb.timerOffCb), regs := { initState.regs with r5 := 0xFF } }
        [⟨0x25, [0x00, 0x30]⟩, ⟨0x25, [0x5C, 0x46, 0x46]⟩, ⟨0xA0, packImage { initState.regs with r5 := 0xFF }⟩])
  ∧ (∀ t : DriverState, (runCb Cb.timerOffCb t).1.regs.r5 = 0xFF) :=
  duty_mid_arms_on_entry_then_reenables initState 5 (by decide) (by decide)

/-- C10: evaluation of `_enable_backlight` at both truth values.  The
in-memory register byte 5 is set to 0xFF on enable and 0x00 on disable as
the claim says, but the bus write to the indicator register 0x25 does not
carry the single byte 0xFF resp. 0x00: the enable payload is the three bytes
5C 46 46 (the source writes the invalid escape backslash-F-F, kept
literally) and the disable payload is the two bytes 00 30 (octal NUL escape
followed by the digit zero). -/
theorem backlight_write_payload_not_single_byte :
    _enable_backlight 1 initState =
      ({ initState with regs := { initRegs with r5 := 0xFF } }, [⟨0x25, [0x5C, 0x46, 0x46]⟩])
  ∧ _enable_backlight 0 initState =
      ({ initState with regs := { initRegs with r5 := 0x00 } }, [⟨0x25, [0x00, 0x30]⟩])
  ∧ ([0x5C, 0x46, 0x46] : List Nat) ≠ [0xFF]
  ∧ ([0x00, 0x30] : List Nat) ≠ [0x00] := by
  refine ⟨?_, ?_, ?_, ?_⟩ <;> decide

end LIS2DH12
